import Mathlib

/-!
Shallow embedding of `src/index.js` of the dsa-connect client SDK.

The source file contains two variants of the `DSA` facade class, separated by a
document marker: the first variant (lines 1-342) routes `cast` on the numeric
routing type stored in the selected instance's configuration (type 0 = direct
submission, type 1 = Gnosis-Safe routing), while the second variant
(lines 343-663) submits `cast` directly without consulting a routing type.
Definitions below that differ between the variants carry a `1` or `2` suffix;
`build`, `buildTxObj`, `setInstance`, `Spell().add` and `read` are identical in
both variants and are embedded once.

External concerns (ABI encoding, RPC transport, signing) are delegated by the
source to an external contract library; they are modelled as free constructors
or function parameters, never reimplemented. Effects are made explicit: each
embedded operation returns the data it assembles together with a trace of the
externally visible steps it performs and/or an `Except`-style outcome.
-/

namespace DsaConnect

/-- JavaScript runtime errors that the embedded code can raise: reading a
variable that was never declared (ReferenceError), reading a property of
`undefined` (TypeError), and explicitly constructed `Error` objects. -/
inductive JsError where
  | referenceError (msg : String)
  | typeError (msg : String)
  | errorObj (msg : String)
deriving DecidableEq

/-- JavaScript truthiness test for an optional string-valued field:
`undefined` and the empty string are falsy. -/
def falsyOptStr : Option String → Bool
  | none => true
  | some s => s = ""

/-- JavaScript truthiness test for an optional array-valued field:
only `undefined` is falsy (an array is truthy even when empty). -/
def falsyOptArgs : Option (List String) → Bool
  | none => true
  | some _ => false

/-- Defaulting idiom `if (!d.x) d.x = v` for a string field. -/
def strOr (v : Option String) (dflt : String) : String :=
  match v with
  | none => dflt
  | some s => if s = "" then dflt else s

/-- Defaulting idiom `if (!d.x) d.x = v` for a numeric field
(`0` is falsy in JavaScript). -/
def natOr (v : Option Nat) (dflt : Nat) : Nat :=
  match v with
  | none => dflt
  | some n => if n = 0 then dflt else n

/-- Per-instance configuration object, as installed by `setInstance`'s second
argument: a numeric routing type and an optional Gnosis-Safe address.
The default instance installed by the constructor carries no such object. -/
structure Config where
  type : Option Int
  gnosisSafe : Option String
deriving DecidableEq

/-- The currently selected DSA account instance (src/index.js lines 34-38):
id, address and version, plus the optional `config` object which the
constructor's default instance lacks (`config := none` models the absent
field, so that reading `config.type` is a TypeError). -/
structure Instance where
  id : Nat
  address : String
  version : Nat
  config : Option Config
deriving DecidableEq

/-- Modelled from the spec: the genesis placeholder address lives in
`constant/addresses.js`, which is not under `src/`; the spec calls it a
well-known genesis placeholder. Its concrete value is irrelevant to every
claim, only its identity is used. -/
def genesisAddress : String := "0x0000000000000000000000000000000000000000"

/-- The default instance installed by the constructor
(src/index.js lines 34-38): only id, address and version; no config field. -/
def defaultInstance : Instance :=
  { id := 0, address := genesisAddress, version := 1, config := none }

/-- Modelled from the spec: the core index contract address comes from
`constant/addresses.js`, which is not under `src/`. Only its identity is
used by the claims. -/
def coreIndexAddress : String := "0xCoreIndex"

/-! ## setInstance (src/index.js lines 88-123, identical logic in lines 436-469) -/

/-- The argument of `setInstance`: either a plain id or an object expected to
carry an `id` field. -/
inductive DsaIdArg where
  | obj (id : Option Nat)
  | num (id : Nat)
deriving DecidableEq

/-- Front part of `setInstance` (lines 91-98): an object argument with a falsy
`id` field (absent, or `0`) throws the dsaId-not-defined error; a plain
argument is used as the id directly. The `isFinite` check never fires on a
natural number. -/
def resolveDsaId : DsaIdArg → Except String Nat
  | .obj none => .error "`dsaId` is not defined."
  | .obj (some i) => if i = 0 then .error "`dsaId` is not defined." else .ok i
  | .num i => .ok i

/-- The distinct rejection message of `setInstance` for an id beyond the
current account count (src/index.js lines 116-118). -/
def dsaIdNotExistMsg : String :=
  "dsaId does not exist. Run `dsa.build()` to create new DSA."

/-- Continuation of `setInstance` after the `getAccountIdDetails` read call
(src/index.js lines 105-122). On a successful lookup the three components of
the returned tuple are copied into the instance's id, address and version
fields and the (mutated) instance is the resolution value. On a failed lookup
the account count is fetched and the promise rejects with the distinct
`dsaIdNotExistMsg` when `count < Number(id)`, else with the original error.
Returns the instance state after the call together with the settlement. -/
def setInstanceStep (inst : Instance) (idNum : Nat) (count : Nat)
    (lookup : Except String (Nat × String × Nat)) :
    Instance × Except String Instance :=
  match lookup with
  | .ok res =>
      let inst2 : Instance :=
        { inst with id := res.1, address := res.2.1, version := res.2.2 }
      (inst2, .ok inst2)
  | .error err =>
      (inst, .error (if count < idNum then dsaIdNotExistMsg else err))

/-! ## build and buildTxObj (src/index.js lines 151-203, identical in lines 497-549) -/

/-- ABI-encoded call data. ABI encoding is delegated to the external contract
library (spec section 6); it is modelled as a free constructor recording the
encoded method and its arguments. -/
inductive CallData where
  | buildCall (authority : String) (version : Nat) (origin : String)
deriving DecidableEq

/-- The optional fields of the parameter object accepted by `build` and
`buildTxObj`; `none` models an absent (undefined) field. Gas, gasPrice and
nonce pass through untouched to `getTxObj` and are omitted. -/
structure BuildParams where
  authority : Option String
  version : Option Nat
  origin : Option String
  «from» : Option String
deriving DecidableEq

/-- The fresh object a missing parameter argument is replaced by
(line 153: `if (!_d) _d = {}`). -/
def emptyBuildParams : BuildParams := ⟨none, none, none, none⟩

/-- The transaction descriptor assembled by `build`/`buildTxObj` before it is
handed to `getTxObj`: the defaulted build fields, the target address and the
encoded call data. `buildTxObj` never touches the `from` field, so it stays
optional here. -/
structure BuildTx where
  authority : String
  version : Nat
  origin : String
  «from» : Option String
  «to» : String
  callData : CallData
deriving DecidableEq

/-- The `build` method (src/index.js lines 151-175): resolves the signer
address `addr` via the internal helper, defaults authority, version (to 1),
origin (to the facade's current `selfOrigin`) and `from`, targets the core
index contract, and encodes the contract's build call. The assembled
descriptor is then completed by `getTxObj` and submitted via `sendTxn`
(both delegated; submission is outside this pure assembly). -/
def build (addr : String) (selfOrigin : String) (d0 : Option BuildParams) :
    BuildTx :=
  let d := d0.getD emptyBuildParams
  let authority := strOr d.authority addr
  let version := natOr d.version 1
  let origin := strOr d.origin selfOrigin
  { authority := authority
  , version := version
  , origin := origin
  , «from» := some (strOr d.«from» addr)
  , «to» := coreIndexAddress
  , callData := .buildCall authority version origin }

/-- The `buildTxObj` method (src/index.js lines 185-203). Unlike `build` it
never calls `getAddress`, yet line 187 still reads the variable `_addr`
(`if (!_d.authority) _d.authority = _addr`), which is declared nowhere in the
method: whenever the authority field is falsy this read raises a
ReferenceError inside the async method, rejecting the returned promise. When
authority is supplied, version and origin are defaulted as in `build` but the
`from` field is left untouched. -/
def buildTxObj (selfOrigin : String) (d0 : Option BuildParams) :
    Except JsError BuildTx :=
  let d := d0.getD emptyBuildParams
  match d.authority with
  | none => .error (.referenceError "_addr is not defined")
  | some a =>
      if a = "" then .error (.referenceError "_addr is not defined")
      else
        let version := natOr d.version 1
        let origin := strOr d.origin selfOrigin
        .ok { authority := a
            , version := version
            , origin := origin
            , «from» := d.«from»
            , «to» := coreIndexAddress
            , callData := .buildCall a version origin }

/-! ## Spell and its add method (src/index.js lines 299-321, identical in lines 621-643) -/

/-- A raw operation object handed to `Spell().add`: each of the three required
fields may be absent. -/
structure SpellInput where
  connector : Option String
  method : Option String
  args : Option (List String)
deriving DecidableEq

/-- What `add` does besides returning: either it writes a message through
`console.error` and leaves the list alone, or it raises an exception, or it
appends the operation. The source only ever logs or appends; the `raised`
constructor exists so that raising is expressible. -/
inductive AddOutcome where
  | logged (msg : String)
  | raised (msg : String)
  | appended
deriving DecidableEq

/-- Whether an `AddOutcome` is an exception. -/
def AddOutcome.isRaised : AddOutcome → Bool
  | .raised _ => true
  | _ => false

/-- The `add` method of a `Spell()` object (src/index.js lines 314-319): a
falsy connector, method or args field makes it log the corresponding
`console.error` message and return with the list unchanged; otherwise the
operation is pushed onto the list. -/
def Spell.add (data : List SpellInput) (s : SpellInput) :
    List SpellInput × AddOutcome :=
  if falsyOptStr s.connector then (data, .logged "connector not defined.")
  else if falsyOptStr s.method then (data, .logged "method not defined.")
  else if falsyOptArgs s.args then (data, .logged "args not defined.")
  else (data ++ [s], .appended)

/-- An operation is well-formed when all three required fields are truthy. -/
def wellFormedSpell (s : SpellInput) : Bool :=
  !falsyOptStr s.connector && !falsyOptStr s.method && !falsyOptArgs s.args

/-- The operation list of a `Spell()` object after an arbitrary sequence of
`add` calls, starting from the empty list the constructor installs
(src/index.js lines 304-306). -/
def runAdds (ops : List SpellInput) : List SpellInput :=
  ops.foldl (fun data s => (Spell.add data s).1) []

/-! ## encodeSpells (internal.js, not under src/) and read (src/index.js lines 326-341) -/

/-- Modelled from the spec: per-operation ABI encoding inside `encodeSpells`
lives in `internal.js`, which is not under `src/`. The external encoder is
modelled as an injective record of the method and arguments it encodes. -/
structure EncodedSpell where
  method : Option String
  args : Option (List String)
deriving DecidableEq

/-- Modelled from the spec: per-operation encoding step of `encodeSpells`. -/
def encodeSpellData (s : SpellInput) : EncodedSpell :=
  { method := s.method, args := s.args }

/-- Modelled from the spec: `encodeSpells` lives in `internal.js`, which is
not under `src/`. Per spec section 4.2 it transforms the ordered operation
list into the parallel arrays of connector names and encoded per-operation
call data that the on-chain batch-execution entry point expects, preserving
order. -/
def encodeSpells (spells : List SpellInput) :
    List (Option String) × List EncodedSpell :=
  (spells.map SpellInput.connector, spells.map encodeSpellData)

/-- A registry entry for `read`: the interface descriptor and address of a
protocol, as paired by `this.ABI.read[protocol]` / `this.address.read[protocol]`. -/
structure RegEntry where
  abi : String
  addr : String
deriving DecidableEq

/-- Modelled from the spec: the read registries live in `constant/abis.js` and
`constant/addresses.js`, which are not under `src/`; per spec section 2 they
are static tables keyed by protocol name, modelled as an association list.
Indexing with an absent key yields `undefined` (`none`). -/
def lookupReg (reg : List (String × RegEntry)) (protocol : String) :
    Option RegEntry :=
  (reg.find? (fun e => e.1 = protocol)).map Prod.snd

/-- The argument of `read`: protocol name, method name and argument list. -/
structure ReadSpec where
  protocol : String
  method : String
  args : List String
deriving DecidableEq

/-- The `read` method (src/index.js lines 326-341, identical in lines
648-663): resolves the protocol's interface/address pair from the registries
and invokes the call on the external contract handle. Modelled from the spec
for the parts outside `src/`: constructing the external contract handle with
an absent (undefined) interface raises, and inside the async method that
surfaces as a rejection, never as a resolution; with a present entry the raw
RPC result (a parameter here) settles the promise. -/
def read (reg : List (String × RegEntry))
    (rpc : RegEntry → String → List String → Except String String)
    (s : ReadSpec) : Except JsError String :=
  match lookupReg reg s.protocol with
  | none =>
      .error (.typeError "Contract instantiation requires a json interface")
  | some e =>
      match rpc e s.method s.args with
      | .ok v => .ok v
      | .error err => .error (.errorObj err)

/-! ## The cast family

For `estimateCastGas`, `cast` and `castTxObj` the claims are about which
externally visible steps happen in which order and how the call settles, so
each is embedded as a trace of steps plus an outcome. The external results of
a successful submission, estimation or `getTxObj` are delegated and modelled
as succeeding; the trace records the attempt itself. -/

/-- Externally visible steps of the cast family, in source order. -/
inductive CastStep where
  | getAddress
  | encodeSpells
  | encodeCallData
  | getTxObj
  | submitDirect
  | submitGnosis
  | estimateDirect
deriving DecidableEq

/-- How a call of the cast family settles. A JavaScript `throw` inside the
body of an async method rejects the returned promise (`rejected`); a `throw`
inside the promise executor after an `await` only raises an unhandled
rejection while the returned promise itself never settles
(`raisedUnsettled`); an if/else-if chain that falls through without calling
resolve or reject leaves the promise pending forever (`neverSettles`). -/
inductive CastOutcome where
  | resolved
  | rejected (e : JsError)
  | raisedUnsettled (e : JsError)
  | neverSettles
deriving DecidableEq

/-- The TypeError raised by reading `this.instance.config.type` when the
selected instance has no config object. -/
def configTypeErr : JsError :=
  .typeError "Cannot read properties of undefined (reading type)"

/-- The explicit error message of variant-1 `cast` for a routing type other
than 0 and 1 (src/index.js line 262). -/
def invalidTypeMsg : String := "`type` is not vaild"

/-- The explicit error message of variant-1 `cast` for a missing Gnosis-Safe
address on the type-1 path (src/index.js lines 248-250). -/
def safeAddrMsg : String :=
  "`safeAddress` is not defined. Run `await dsa.setInstance(dsaId, \x7b gnosisSafe: safeAddr \x7d)`"

/-- Variant-1 `cast` (src/index.js lines 218-265): awaits `getAddress`,
encodes the spells, defaults to/from/origin, then reads
`this.instance.config.type` (line 224) — a TypeError rejecting the method's
promise when the instance has no config. With a config it encodes the cast
call data, awaits `getTxObj`, and branches on the type: 0 submits directly;
1 checks the configured Gnosis-Safe address (a falsy one raises the explicit
safe-address error inside the executor) and then reads
`this.gnosisSafe.createTransaction` — but no `gnosisSafe` member is ever
installed in variant 1, so that read is a TypeError inside the executor;
any other type raises the explicit invalid-type error inside the executor
(line 262), after which the returned promise never settles. -/
def cast1 (inst : Instance) : List CastStep × CastOutcome :=
  match inst.config with
  | none => ([.getAddress, .encodeSpells], .rejected configTypeErr)
  | some cfg =>
      let steps : List CastStep :=
        [.getAddress, .encodeSpells, .encodeCallData, .getTxObj]
      if cfg.type = some 0 then (steps ++ [.submitDirect], .resolved)
      else if cfg.type = some 1 then
        if falsyOptStr cfg.gnosisSafe then
          (steps, .raisedUnsettled (.errorObj safeAddrMsg))
        else
          (steps, .raisedUnsettled
            (.typeError "Cannot read properties of undefined (reading createTransaction)"))
      else (steps, .raisedUnsettled (.errorObj invalidTypeMsg))

/-- Variant-2 `cast` (src/index.js lines 564-587): awaits `getAddress`,
encodes the spells, defaults to/from/origin, encodes the cast call data,
awaits `getTxObj` and submits directly via `sendTxn`. It never consults the
routing type of the selected instance. -/
def cast2 (_inst : Instance) : List CastStep × CastOutcome :=
  ([.getAddress, .encodeSpells, .encodeCallData, .getTxObj, .submitDirect],
   .resolved)

/-- Variant-1 `estimateCastGas` (src/index.js lines 67-83): its very first
statement reads `this.instance.config.type` — a TypeError rejecting the
method's promise when the instance has no config, before anything else. With
a config: type 0 awaits the direct gas estimation; type 1 reads
`this.gnosisSafe.estimateGnosisSafeGas` — no `gnosisSafe` member exists in
variant 1, so a TypeError is raised inside the executor; any other type
matches no branch and the promise never settles. -/
def estimateCastGas1 (inst : Instance) : List CastStep × CastOutcome :=
  match inst.config with
  | none => ([], .rejected configTypeErr)
  | some cfg =>
      if cfg.type = some 0 then ([.estimateDirect], .resolved)
      else if cfg.type = some 1 then
        ([], .raisedUnsettled
          (.typeError "Cannot read properties of undefined (reading estimateGnosisSafeGas)"))
      else ([], .neverSettles)

/-- Variant-1 `castTxObj` (src/index.js lines 279-294): encodes the spells,
defaults to/origin, then reads `this.instance.config.type` (line 283) — a
TypeError rejecting the method's promise when the instance has no config.
With a config it encodes the cast call data, awaits `getTxObj` and returns
the transaction object; it never submits and never branches on the type. -/
def castTxObj1 (inst : Instance) : List CastStep × CastOutcome :=
  match inst.config with
  | none => ([.encodeSpells], .rejected configTypeErr)
  | some _ =>
      ([.encodeSpells, .encodeCallData, .getTxObj], .resolved)

/-! ## Theorems -/

/-- C3: for every account id whose on-chain lookup succeeds and returns a
tuple, `setInstance` sets the current instance's id, address and version to
exactly the first, second and third components of the returned tuple, and
resolves with that instance. -/
theorem setInstance_success_sets_fields (inst : Instance) (idNum count : Nat)
    (res : Nat × String × Nat) :
    (setInstanceStep inst idNum count (.ok res)).1.id = res.1 ∧
    (setInstanceStep inst idNum count (.ok res)).1.address = res.2.1 ∧
    (setInstanceStep inst idNum count (.ok res)).1.version = res.2.2 ∧
    (setInstanceStep inst idNum count (.ok res)).2 =
      .ok (setInstanceStep inst idNum count (.ok res)).1 :=
  ⟨rfl, rfl, rfl, rfl⟩

/-- C4: whenever the on-chain lookup in `setInstance` fails, the operation
rejects with the distinct dsaId-does-not-exist message exactly when the
requested id is greater than the current total account count (count < id),
and otherwise rejects with the original lookup error unchanged; the instance
is left untouched. -/
theorem setInstance_failure_distinguishes (inst : Instance)
    (idNum count : Nat) (err : String) :
    (setInstanceStep inst idNum count (.error err)).1 = inst ∧
    (setInstanceStep inst idNum count (.error err)).2 =
      .error (if count < idNum then dsaIdNotExistMsg else err) :=
  ⟨rfl, rfl⟩

/-- C5: when `build` is called with no parameter object, or with the
corresponding fields unset, it defaults the authority and from fields to the
signer address derived by the internal helper, the origin field to the
facade's current default origin, and the version field to 1, before encoding
the build call. -/
theorem build_defaults_unset_fields (addr selfOrigin : String) :
    build addr selfOrigin none =
      { authority := addr, version := 1, origin := selfOrigin,
        «from» := some addr, «to» := coreIndexAddress,
        callData := .buildCall addr 1 selfOrigin } ∧
    build addr selfOrigin (some emptyBuildParams) =
      { authority := addr, version := 1, origin := selfOrigin,
        «from» := some addr, «to» := coreIndexAddress,
        callData := .buildCall addr 1 selfOrigin } :=
  ⟨rfl, rfl⟩

/-- C2 (code bug): `buildTxObj` is not the non-submitting twin of `build`.
Its body reads the variable `_addr`, which `build` obtains from `getAddress`
but `buildTxObj` never declares, so on any parameter object with an unset
authority field it raises a ReferenceError instead of assembling the
descriptor — while `build` on the same input assembles the fully defaulted
descriptor and submits it. -/
theorem buildTxObj_undefined_addr :
    buildTxObj "0xOrigin" none =
      .error (.referenceError "_addr is not defined") ∧
    buildTxObj "0xOrigin" (some emptyBuildParams) =
      .error (.referenceError "_addr is not defined") ∧
    build "0xSigner" "0xOrigin" none =
      { authority := "0xSigner", version := 1, origin := "0xOrigin",
        «from» := some "0xSigner", «to» := coreIndexAddress,
        callData := .buildCall "0xSigner" 1 "0xOrigin" } :=
  ⟨rfl, rfl, rfl⟩

/-- C6: the two parallel arrays produced by `encodeSpells` have equal length
(both the length of the input list), and for every position the element of
the first array is the connector of the input operation at that position
while the element of the second is its encoded call data: the input order is
preserved and never reordered. -/
theorem encodeSpells_parallel (spells : List SpellInput) :
    (encodeSpells spells).1.length = (encodeSpells spells).2.length ∧
    (encodeSpells spells).1.length = spells.length ∧
    ∀ i : Nat,
      (encodeSpells spells).1[i]? = (spells[i]?).map SpellInput.connector ∧
      (encodeSpells spells).2[i]? = (spells[i]?).map encodeSpellData := by
  refine ⟨by simp [encodeSpells], by simp [encodeSpells], fun i => ⟨?_, ?_⟩⟩ <;>
    simp [encodeSpells]

lemma mem_spell_add {data : List SpellInput} {s x : SpellInput}
    (hx : x ∈ (Spell.add data s).1) : x ∈ data ∨ wellFormedSpell x = true := by
  unfold Spell.add at hx
  by_cases h1 : falsyOptStr s.connector
  · simp [h1] at hx; exact Or.inl hx
  · by_cases h2 : falsyOptStr s.method
    · simp [h1, h2] at hx; exact Or.inl hx
    · by_cases h3 : falsyOptArgs s.args
      · simp [h1, h2, h3] at hx; exact Or.inl hx
      · simp [h1, h2, h3] at hx
        rcases hx with hx | hx
        · exact Or.inl hx
        · subst hx
          right
          simp [wellFormedSpell, h1, h2, h3]

lemma wf_runAdds_aux (ops : List SpellInput) :
    ∀ data : List SpellInput, (∀ x ∈ data, wellFormedSpell x = true) →
      ∀ x ∈ ops.foldl (fun data s => (Spell.add data s).1) data,
        wellFormedSpell x = true := by
  induction ops with
  | nil => intro data h x hx; exact h x hx
  | cons s ops ih =>
      intro data h x hx
      simp only [List.foldl_cons] at hx
      refine ih _ ?_ x hx
      intro y hy
      rcases mem_spell_add hy with hy | hy
      · exact h y hy
      · exact hy

/-- C7 counterexample: adding an operation with no connector field makes the
add method of a Spell object write "connector not defined." through
console.error and return; no exception is raised. -/
theorem spell_add_logs_not_raises :
    (Spell.add [] ⟨none, some "deposit", some ["100"]⟩).2 =
      .logged "connector not defined." ∧
    ((Spell.add [] ⟨none, some "deposit", some ["100"]⟩).2).isRaised = false := by
  decide

/-- C7 amended: for every operation object missing the connector field, the
method field, or the args field, the add method of a Spell object rejects the
operation by logging an error message to the console and leaving the
operation list unchanged; it raises no exception. -/
theorem spell_add_rejects_by_logging (data : List SpellInput) (s : SpellInput)
    (h : falsyOptStr s.connector = true ∨ falsyOptStr s.method = true ∨
         falsyOptArgs s.args = true) :
    (Spell.add data s).1 = data ∧
    (∃ m, (Spell.add data s).2 = .logged m) ∧
    ((Spell.add data s).2).isRaised = false := by
  unfold Spell.add
  rcases h with h1 | h2 | h3
  · simp [h1, AddOutcome.isRaised]
  · by_cases h1 : falsyOptStr s.connector <;>
      simp [h1, h2, AddOutcome.isRaised]
  · by_cases h1 : falsyOptStr s.connector
    · simp [h1, AddOutcome.isRaised]
    · by_cases h2 : falsyOptStr s.method <;>
        simp [h1, h2, h3, AddOutcome.isRaised]

/-- Witness for the amended C7 at a concrete operation missing its method. -/
theorem spell_add_rejects_by_logging_witness :
    (Spell.add [] ⟨some "basic", none, some []⟩).1 = [] ∧
    (∃ m, (Spell.add [] ⟨some "basic", none, some []⟩).2 = .logged m) ∧
    ((Spell.add [] ⟨some "basic", none, some []⟩).2).isRaised = false :=
  spell_add_rejects_by_logging [] ⟨some "basic", none, some []⟩
    (Or.inr (Or.inl rfl))

/-- C8: an operation missing the connector, method or args field is never
appended — add leaves the operation list unchanged on such input — and
consequently every operation present in the list after any sequence of add
calls on a fresh Spell object is well-formed, so every operation present when
the list is encoded has all three fields. -/
theorem spell_list_invariant :
    (∀ (data : List SpellInput) (s : SpellInput), wellFormedSpell s = false →
        (Spell.add data s).1 = data) ∧
    (∀ (ops : List SpellInput) (x : SpellInput),
        x ∈ runAdds ops → wellFormedSpell x = true) := by
  constructor
  · intro data s hs
    unfold Spell.add
    by_cases h1 : falsyOptStr s.connector
    · simp [h1]
    · by_cases h2 : falsyOptStr s.method
      · simp [h1, h2]
      · by_cases h3 : falsyOptArgs s.args
        · simp [h1, h2, h3]
        · exfalso
          simp [wellFormedSpell, h1, h2, h3] at hs
  · intro ops x hx
    unfold runAdds at hx
    exact wf_runAdds_aux ops [] (by intro y hy; cases hy) x hx

/-- Witness for C8 at a concrete malformed add and a concrete run. -/
theorem spell_list_invariant_witness :
    (Spell.add [] ⟨some "basic", some "deposit", none⟩).1 = [] ∧
    wellFormedSpell ⟨some "basic", some "withdraw", some ["10"]⟩ = true :=
  ⟨spell_list_invariant.1 [] ⟨some "basic", some "deposit", none⟩ (by decide),
   spell_list_invariant.2 [⟨some "basic", some "withdraw", some ["10"]⟩]
     ⟨some "basic", some "withdraw", some ["10"]⟩ (by decide)⟩

/-- C9: a read request whose protocol name is absent from the address/ABI
registry fails with an error rather than silently resolving, whatever the
RPC would have answered for a present protocol. -/
theorem read_missing_protocol_fails (reg : List (String × RegEntry))
    (rpc : RegEntry → String → List String → Except String String)
    (s : ReadSpec) (h : lookupReg reg s.protocol = none) :
    read reg rpc s =
      .error (.typeError "Contract instantiation requires a json interface") := by
  unfold read
  rw [h]

/-- Witness for C9: the empty registry holds no protocol named compound. -/
theorem read_missing_protocol_fails_witness :
    read [] (fun _ _ _ => .ok "0") ⟨"compound", "getPosition", []⟩ =
      .error (.typeError "Contract instantiation requires a json interface") :=
  read_missing_protocol_fails [] (fun _ _ _ => .ok "0")
    ⟨"compound", "getPosition", []⟩ rfl

/-- An instance whose configured routing type is 2, neither the direct type
nor the Gnosis-Safe type. -/
def typeTwoInstance : Instance :=
  { id := 7, address := "0xDsaSeven", version := 1,
    config := some { type := some 2, gnosisSafe := none } }

/-- C1 counterexample: variant-2 cast never consults the routing type of the
selected instance; with routing type 2 it submits directly and resolves,
instead of failing with the invalid-type error and performing no
submission. -/
theorem cast2_ignores_routing_type :
    CastStep.submitDirect ∈ (cast2 typeTwoInstance).1 ∧
    (cast2 typeTwoInstance).2 = .resolved := by
  decide

/-- C1 amended: in the first variant, for every instance whose configured
routing type is neither 0 nor 1, cast raises the explicit invalid-type error
(inside the promise executor, so the returned promise never settles) and
performs no direct and no Gnosis-Safe submission. -/
theorem cast1_invalid_type (inst : Instance) (cfg : Config)
    (hc : inst.config = some cfg)
    (h0 : cfg.type ≠ some 0) (h1 : cfg.type ≠ some 1) :
    (cast1 inst).2 = .raisedUnsettled (.errorObj invalidTypeMsg) ∧
    CastStep.submitDirect ∉ (cast1 inst).1 ∧
    CastStep.submitGnosis ∉ (cast1 inst).1 := by
  have hco : cast1 inst =
      ([.getAddress, .encodeSpells, .encodeCallData, .getTxObj],
       .raisedUnsettled (.errorObj invalidTypeMsg)) := by
    unfold cast1
    rw [hc]
    dsimp only
    rw [if_neg h0, if_neg h1]
  rw [hco]
  exact ⟨rfl, by decide, by decide⟩

/-- An instance whose configured routing type is 9. -/
def typeNineInstance : Instance :=
  { id := 1, address := "0xDsaOne", version := 1,
    config := some { type := some 9, gnosisSafe := none } }

/-- Witness for the amended C1 at a concrete instance with routing type 9. -/
theorem cast1_invalid_type_witness :
    (cast1 typeNineInstance).2 = .raisedUnsettled (.errorObj invalidTypeMsg) ∧
    CastStep.submitDirect ∉ (cast1 typeNineInstance).1 ∧
    CastStep.submitGnosis ∉ (cast1 typeNineInstance).1 :=
  cast1_invalid_type typeNineInstance { type := some 9, gnosisSafe := none }
    rfl (by decide) (by decide)

/-- C10 counterexample: with the constructor's default instance selected,
variant-1 cast runs its spell-encoding step (after getAddress) before hitting
the TypeError on the missing config object, so the failure does not happen
before any encoding is attempted. -/
theorem cast1_default_encodes_before_failure :
    (cast1 defaultInstance).1 = [CastStep.getAddress, CastStep.encodeSpells] ∧
    CastStep.encodeSpells ∈ (cast1 defaultInstance).1 ∧
    (cast1 defaultInstance).2 = .rejected configTypeErr := by
  decide

/-- C10 amended: while the constructor's default instance (which has no
config field) is selected, every call to variant-1 estimateCastGas, cast and
castTxObj rejects with the TypeError from reading config.type, before any
call-data encoding or submission is attempted; estimateCastGas fails before
any step at all, while cast and castTxObj first run their spell-encoding
step. -/
theorem default_instance_type_errors :
    estimateCastGas1 defaultInstance = ([], .rejected configTypeErr) ∧
    cast1 defaultInstance =
      ([CastStep.getAddress, CastStep.encodeSpells], .rejected configTypeErr) ∧
    castTxObj1 defaultInstance =
      ([CastStep.encodeSpells], .rejected configTypeErr) ∧
    CastStep.encodeCallData ∉ (cast1 defaultInstance).1 ∧
    CastStep.submitDirect ∉ (cast1 defaultInstance).1 ∧
    CastStep.submitGnosis ∉ (cast1 defaultInstance).1 ∧
    CastStep.submitDirect ∉ (castTxObj1 defaultInstance).1 := by
  decide

end DsaConnect
